import Mathlib

set_option maxHeartbeats 1000000

/-! Verification development for the LanggraphIdeas repository.

The Python sources are shallowly embedded: Python strings become `List Char`
(ASCII-faithful), dictionaries become association lists, exceptions become
`Except`, and every external collaborator (language model, database driver,
vector store) is passed in as an explicit function argument so that each
code path is a total Lean function.  Definitions follow the source files
`agent_app/tools/sql.py`, `agent_app/graph/nodes.py`, `agent_app/graph/graph.py`,
`backend/graph/state.py`, `backend/services/vector.py` and
`backend/tools/rag.py`. -/

/-- ASCII whitespace, the characters matched by the regex class backslash-s
and removed by the Python strip method (space, tab, newline, carriage
return, vertical tab, form feed). -/
def pySpace (c : Char) : Bool :=
  c == ' ' || c == Char.ofNat 9 || c == Char.ofNat 10 || c == Char.ofNat 13 ||
  c == Char.ofNat 11 || c == Char.ofNat 12

/-- A character that may delimit a forbidden SQL token in `is_readonly_sql`:
whitespace or a semicolon, from the regex character class in sql.py line 30. -/
def isBoundary (c : Char) : Bool := pySpace c || c == ';'

/-- ASCII uppercasing of one character, the effect of the Python upper method
on ASCII text. -/
def pyToUpper (c : Char) : Char :=
  if 'a' ≤ c ∧ c ≤ 'z' then Char.ofNat (c.toNat - 32) else c

/-- The Python strip method: remove leading and trailing whitespace. -/
def pyStrip (s : List Char) : List Char :=
  (((s.dropWhile pySpace).reverse).dropWhile pySpace).reverse

/-- Does `w` occur at the very first position of `s`, followed by the end of
the string or a boundary character?  This is the tail part of matching the
regex pattern used in sql.py line 30 at one position. -/
def startsTok : List Char → List Char → Bool
  | [], [] => true
  | [], c :: _ => isBoundary c
  | _ :: _, [] => false
  | a :: w, c :: s => a == c && startsTok w s

/-- Does `w` occur somewhere after position zero of `s`, preceded by a
boundary character and followed by end-of-string or a boundary? -/
def hasTokMid (w : List Char) : List Char → Bool
  | [] => false
  | c :: s => (isBoundary c && startsTok w s) || hasTokMid w s

/-- Search for `w` as a whole token anywhere in `s`: the effect of
re.search with the pattern of sql.py line 30. -/
def hasTok (w s : List Char) : Bool := startsTok w s || hasTokMid w s

/-- The forbidden keyword list of is_readonly_sql (sql.py lines 19-22). -/
def forbidden : List (List Char) :=
  [("INSERT").toList, ("UPDATE").toList, ("DELETE").toList, ("DROP").toList,
   ("ALTER").toList, ("TRUNCATE").toList, ("CREATE").toList, ("GRANT").toList,
   ("REVOKE").toList, ("EXEC").toList, ("EXECUTE").toList]

/-- Embedding of is_readonly_sql (sql.py lines 10-34): uppercase and strip
the statement, then return false when any forbidden keyword occurs as a
whole token. -/
def is_readonly_sql (sql : List Char) : Bool :=
  let u := pyStrip (sql.map pyToUpper)
  !(forbidden.any (fun w => hasTok w u))

/-- Condition on the text following a token occurrence: end of string, or a
whitespace/semicolon boundary character. -/
def endCond (post : List Char) : Prop :=
  post = [] ∨ ∃ c p, post = c :: p ∧ isBoundary c = true

/-- Condition on the text preceding a token occurrence: start of string, or a
whitespace/semicolon boundary character. -/
def beginCond (pre : List Char) : Prop :=
  pre = [] ∨ ∃ p c, pre = p ++ [c] ∧ isBoundary c = true

/-- The word `w` occurs in `s` as a whole token bounded on both sides by
start-of-string/end-of-string, whitespace, or a semicolon. -/
def tokenOccurs (w s : List Char) : Prop :=
  ∃ pre post, s = pre ++ w ++ post ∧ beginCond pre ∧ endCond post

/-- Token occurrences strictly after position zero, with their preceding
boundary character made explicit. -/
def midOccurs (w s : List Char) : Prop :=
  ∃ p c post, s = p ++ c :: (w ++ post) ∧ isBoundary c = true ∧ endCond post

/-- The statement `s` contains some forbidden verb as a whole token. -/
def containsForbiddenToken (s : List Char) : Prop :=
  ∃ w, w ∈ forbidden ∧ tokenOccurs w s

/-- Conversation roles of langchain messages. -/
inductive Role where
  | human
  | ai
  | system
deriving DecidableEq

/-- One conversation turn (a langchain message). -/
structure Msg where
  role : Role
  content : List Char
deriving DecidableEq

/-- Embedding of AgentState (backend/graph/state.py). -/
structure AgentState where
  messages : List Msg
  clarification_needed : Bool
  sql_query : Option (List Char)
  rag_context : Option (List Char)
  sql_result : Option (List Char)
  intent : Option (List Char)
  filters : Option (List ((List Char) × (List Char)))
  final_answer : Option (List Char)
deriving DecidableEq

/-- A partial state update as returned by a LangGraph node: only the keys a
node mentions are written; `messages` goes through the add_messages reducer
(append), every other key overwrites. -/
structure StateUpdate where
  messages : List Msg := []
  clarification_needed : Option Bool := none
  sql_query : Option (List Char) := none
  rag_context : Option (List Char) := none
  sql_result : Option (List Char) := none
  intent : Option (List Char) := none
  filters : Option (List ((List Char) × (List Char))) := none
  final_answer : Option (List Char) := none
deriving DecidableEq

/-- Overwrite semantics for a single non-message state key. -/
def upd {α : Type} (new old : Option α) : Option α :=
  match new with
  | none => old
  | some v => some v

/-- LangGraph channel semantics: apply a node output to the shared state. -/
def applyUpdate (s : AgentState) (u : StateUpdate) : AgentState :=
  { messages := s.messages ++ u.messages
    clarification_needed := u.clarification_needed.getD s.clarification_needed
    sql_query := upd u.sql_query s.sql_query
    rag_context := upd u.rag_context s.rag_context
    sql_result := upd u.sql_result s.sql_result
    intent := upd u.intent s.intent
    filters := upd u.filters s.filters
    final_answer := upd u.final_answer s.final_answer }

/-- Content of the latest message, messages[-1].content in the source. -/
def lastContent (ms : List Msg) : List Char :=
  match ms.getLast? with
  | some m => m.content
  | none => []

/-- The structured output schema of the router (nodes.py lines 20-25). -/
structure RouterOutput where
  intent : List Char
  filters : List ((List Char) × (List Char))
deriving DecidableEq

/-- The four known intent values (nodes.py line 71). -/
def valid_intents : List (List Char) :=
  [("RAG").toList, ("SQL").toList, ("BOTH").toList, ("OFFTOPIC").toList]

/-- Embedding of router_node (nodes.py lines 27-75).  The classification
call is modelled by its outcome `call`: an exception or a RouterOutput.
On exception the node falls back to OFFTOPIC with empty filters; then the
stripped uppercased intent is validated against the known values, and an
out-of-vocabulary intent is replaced by OFFTOPIC (the filters variable is
left as produced by the call).  The node is a total function: no failure
propagates to the caller. -/
def router_node (call : Except (List Char) RouterOutput) : StateUpdate :=
  let r :=
    match call with
    | Except.error _ => ((("OFFTOPIC").toList), ([] : List ((List Char) × (List Char))))
    | Except.ok out => ((pyStrip out.intent).map pyToUpper, out.filters)
  let final := if valid_intents.contains r.1 then r.1 else ("OFFTOPIC").toList
  { intent := some final, filters := some r.2 }

/-- Embedding of rag_node (nodes.py lines 77-91): the retrieval tool call is
the argument `retrieve`; the node writes exactly the rag_context key. -/
def rag_node (retrieve : List Char → List ((List Char) × (List Char)) → List Char)
    (s : AgentState) : StateUpdate :=
  { rag_context := some (retrieve (lastContent s.messages) (s.filters.getD [])) }

/-- Embedding of sql_gen_node (nodes.py lines 95-158): the ReAct agent run is
the argument `agent`, receiving the extracted filters (which shape its
system prompt) and the conversation; the node writes exactly the
sql_result key with the content of the agent final message. -/
def sql_gen_node (agent : Option (List ((List Char) × (List Char))) → List Msg → List Char)
    (s : AgentState) : StateUpdate :=
  { sql_result := some (agent s.filters s.messages) }

/-- The Document Context block of response_node (nodes.py lines 180-181):
present exactly when the rag_context value is a non-empty string, where a
missing key defaults to the empty string. -/
def ragSection (rc : Option (List Char)) : List Char :=
  let v := rc.getD []
  if v = [] then [] else ("Document Context:\n").toList ++ v ++ ("\n\n").toList

/-- The Database Result block of response_node (nodes.py lines 182-183). -/
def sqlSection (sr : Option (List Char)) : List Char :=
  let v := sr.getD []
  if v = [] then [] else ("Database Result:\n").toList ++ v ++ ("\n\n").toList

/-- The combined context block of response_node (nodes.py lines 179-183):
the Document Context part followed by the Database Result part. -/
def full_context (rc sr : Option (List Char)) : List Char :=
  ragSection rc ++ sqlSection sr

/-- The user prompt given to the synthesis model (nodes.py line 192). -/
def response_input (s : AgentState) : List Char :=
  ("Context:\n").toList ++ full_context s.rag_context s.sql_result ++
  ("\n\nQuestion: ").toList ++ lastContent s.messages

/-- Embedding of response_node (nodes.py lines 168-205).  The language-model
call is the argument `llm`; the node has no try/except, so a failing call
propagates (Except.error) and in that case no turn is appended; on success
the node sets final_answer and appends one ai message with that answer. -/
def response_node (llm : List Char → Except (List Char) (List Char))
    (s : AgentState) : Except (List Char) StateUpdate :=
  match llm (response_input s) with
  | Except.error e => Except.error e
  | Except.ok answer =>
      Except.ok { final_answer := some answer
                  messages := [{ role := Role.ai, content := answer }] }

/-- The nodes of the orchestration graph plus the terminal state END
(graph.py lines 11-20 and 68). -/
inductive GNode where
  | router
  | rag
  | sql_gen
  | response
  | END
deriving DecidableEq

/-- Embedding of route_decision (graph.py lines 23-32): the conditional
dispatch out of the router, returning the list of target nodes. -/
def route_decision (intent : Option (List Char)) : List GNode :=
  if intent = some (("RAG").toList) then [GNode.rag]
  else if intent = some (("SQL").toList) then [GNode.sql_gen]
  else if intent = some (("BOTH").toList) then [GNode.rag, GNode.sql_gen]
  else [GNode.response]

/-- The unconditional edges of build_graph (graph.py lines 47-68). -/
def graphEdges : GNode → List GNode
  | GNode.rag => [GNode.response]
  | GNode.sql_gen => [GNode.response]
  | GNode.response => [GNode.END]
  | _ => []

/-- The single-quote character, spliced into SQL text by the tools. -/
def sqc : Char := Char.ofNat 39

/-- The fixed safety refusal of sql_db_query (sql.py line 83). -/
def forbiddenMsg : List Char :=
  ("Error: The query contains forbidden (write/modify) keywords. Execution aborted for safety.").toList

/-- Embedding of sql_db_query (sql.py lines 74-89): reject non-read-only
statements before any database access; otherwise run the query through the
database driver `dbRun` and turn an execution failure into an inline error
string.  The tool is a total function: it never propagates an exception. -/
def sql_db_query (dbRun : List Char → Except (List Char) (List Char))
    (query : List Char) : List Char :=
  if is_readonly_sql query = false then forbiddenMsg
  else
    match dbRun query with
    | Except.ok r => r
    | Except.error e => ("Error executing SQL: ").toList ++ e

/-- The search-term escaping of sql_db_column_value_checker (sql.py
line 177): the Python replace of one quote by two quotes. -/
def escapeQuote : List Char → List Char
  | [] => []
  | c :: rest => if c = sqc then sqc :: sqc :: escapeQuote rest else c :: escapeQuote rest

/-- The query text interpolated by sql_db_column_value_checker (sql.py
line 178). -/
def cvcQuery (table column safe_term : List Char) : List Char :=
  ("SELECT DISTINCT TOP 10 ").toList ++ column ++ (" FROM ").toList ++ table ++
  (" WHERE ").toList ++ column ++ (" LIKE ").toList ++ [sqc, '%'] ++ safe_term ++ ['%', sqc]

/-- The unknown-table error text of sql_db_column_value_checker (sql.py
line 163). -/
def tableErrorMsg (table : List Char) : List Char :=
  ("Error: Table ").toList ++ [sqc] ++ table ++ [sqc] ++ (" does not exist.").toList

/-- Embedding of sql_db_column_value_checker (sql.py lines 150-182): the live
table list and the database driver are arguments.  An unknown table yields
a textual error before any query is built; otherwise the search term is
quote-escaped and the table and column names are interpolated into a
SELECT DISTINCT TOP 10 query handed to the driver, whose failure becomes an
inline error string. -/
def sql_db_column_value_checker (tables : List (List Char))
    (dbRun : List Char → Except (List Char) (List Char))
    (table column search_term : List Char) : List Char :=
  if (tables.contains table) = false then tableErrorMsg table
  else
    match dbRun (cvcQuery table column (escapeQuote search_term)) with
    | Except.ok r => r
    | Except.error e => ("Error checking values: ").toList ++ e

/-- A JSON-like value, the shape of OpenSearch filter expressions and of the
values of a Python filters dictionary. -/
inductive JVal where
  | str : List Char → JVal
  | num : Int → JVal
  | boolean : Bool → JVal
  | arr : List JVal → JVal
  | obj : List ((List Char) × JVal) → JVal

/-- The DSL keywords whose presence makes _convert_to_opensearch_filter pass
the dictionary through unchanged (vector.py line 29). -/
def dslKeys : List (List Char) :=
  [("bool").toList, ("term").toList, ("match").toList, ("range").toList]

/-- Does the dictionary contain one of the DSL keywords as a top-level key? -/
def hasDslKey (d : List ((List Char) × JVal)) : Bool :=
  dslKeys.any (fun k => d.any (fun kv => kv.1 == k))

/-- The metadata namespace prepended to bare keys (vector.py line 35). -/
def metaNs : List Char := ("metadata.").toList

/-- Key namespacing of _convert_to_opensearch_filter (vector.py line 35). -/
def fieldName (k : List Char) : List Char :=
  if metaNs.isPrefixOf k then k else metaNs ++ k

/-- One clause of the converted filter (vector.py lines 37-44): a term on the
.keyword subfield for a string, a terms clause on the .keyword subfield for
a list, and a plain term for any other value. -/
def filterClause (kv : (List Char) × JVal) : JVal :=
  match kv.2 with
  | JVal.str s =>
      JVal.obj [(("term").toList, JVal.obj [(fieldName kv.1 ++ (".keyword").toList, JVal.str s)])]
  | JVal.arr xs =>
      JVal.obj [(("terms").toList, JVal.obj [(fieldName kv.1 ++ (".keyword").toList, JVal.arr xs)])]
  | v => JVal.obj [(("term").toList, JVal.obj [(fieldName kv.1, v)])]

/-- The final boolean wrapper of _convert_to_opensearch_filter (vector.py
lines 46-48): a single clause is embedded directly, several clauses as an
array. -/
def boolFilterWrap (fs : List JVal) : JVal :=
  match fs with
  | [f] => JVal.obj [(("bool").toList, JVal.obj [(("filter").toList, f)])]
  | _ => JVal.obj [(("bool").toList, JVal.obj [(("filter").toList, JVal.arr fs)])]

/-- Embedding of _convert_to_opensearch_filter (vector.py lines 20-48): an
empty (falsy) dictionary yields the null sentinel, a dictionary with a DSL
keyword is returned unchanged, and otherwise each entry becomes a clause
wrapped in a boolean filter. -/
def _convert_to_opensearch_filter (d : List ((List Char) × JVal)) : Option JVal :=
  if d.isEmpty then none
  else if hasDslKey d then some (JVal.obj d)
  else some (boolFilterWrap (d.map filterClause))

/-- The retriever configuration assembled by get_retriever (vector.py lines
50-70): the search type, the top-k bound, the converted filter, and the
optional score threshold (whose numeric value is opaque here). -/
structure RetrieverCfg where
  search_type : List Char
  k : Nat
  filter : Option JVal
  score_threshold : Option Unit

/-- Embedding of get_retriever (vector.py lines 50-70): search_kwargs carry
k, the converted filter when the filter argument is truthy, and the
threshold, which switches the search type. -/
def get_retriever (k : Nat := 4) (filter : Option (List ((List Char) × JVal)) := none)
    (score_threshold : Option Unit := none) : RetrieverCfg :=
  { search_type :=
      if score_threshold = none then ("similarity").toList
      else ("similarity_score_threshold").toList
    k := k
    filter :=
      match filter with
      | none => none
      | some d => if d.isEmpty then none else _convert_to_opensearch_filter d
    score_threshold := score_threshold }

/-- A retrieved document: content plus string metadata. -/
structure Document where
  page_content : List Char
  metadata : List ((List Char) × (List Char))
deriving DecidableEq

/-- Python dict.get with a default, used for the source metadata key. -/
def metaGet (m : List ((List Char) × (List Char))) (key dflt : List Char) : List Char :=
  match m.find? (fun kv => kv.1 == key) with
  | some kv => kv.2
  | none => dflt

/-- Opening brace character of the Python dict rendering. -/
def lbrace : Char := Char.ofNat 123

/-- Closing brace character of the Python dict rendering. -/
def rbrace : Char := Char.ofNat 125

/-- Python repr of a plain string without escape-worthy characters. -/
def pyReprStrLit (s : List Char) : List Char := sqc :: s ++ [sqc]

/-- The Python str.join on a list of fragments. -/
def joinSep (sep : List Char) : List (List Char) → List Char
  | [] => []
  | [x] => x
  | x :: xs => x ++ sep ++ joinSep sep xs

/-- The CPython rendering of a string-to-string dict, as produced by the
f-string on rag.py line 26 for metadata without escape-worthy characters. -/
def reprMeta (m : List ((List Char) × (List Char))) : List Char :=
  lbrace :: (joinSep ((", ").toList)
    (m.map (fun kv => pyReprStrLit kv.1 ++ (": ").toList ++ pyReprStrLit kv.2)) ++ [rbrace])

/-- The per-document formatting of retrieve_documents (rag.py line 26):
content, then source (defaulting to Unknown), then the metadata dict. -/
def formatDoc (d : Document) : List Char :=
  ("Content: ").toList ++ d.page_content ++ ("\nSource: ").toList ++
  metaGet d.metadata (("source").toList) (("Unknown").toList) ++
  ("\nMetadata: ").toList ++ reprMeta d.metadata ++ ("\n").toList

/-- The empty-result sentinel of retrieve_documents (rag.py line 19). -/
def noDocsMsg : List Char := ("No relevant documents found.").toList

/-- Embedding of retrieve_documents (rag.py lines 4-28): build the retriever
with the given k (default 4) and filters and no threshold, run the search
(the vector store is the argument `search`), return the sentinel on an
empty result list, and otherwise the formatted documents joined by the
separator. -/
def retrieve_documents (search : RetrieverCfg → List Char → List Document)
    (query : List Char) (k : Nat := 4)
    (filters : Option (List ((List Char) × JVal)) := none) : List Char :=
  let docs := search (get_retriever k filters none) query
  if docs.isEmpty then noDocsMsg
  else joinSep (("\n---\n").toList) (docs.map formatDoc)

/-! Helper lemmas about the token search of is_readonly_sql. -/

theorem startsTok_iff (w : List Char) :
    ∀ s, startsTok w s = true ↔ ∃ post, s = w ++ post ∧ endCond post := by
  induction w with
  | nil =>
    intro s
    cases s with
    | nil =>
      simp [startsTok, endCond]
    | cons c s' =>
      simp only [startsTok, List.nil_append, endCond]
      constructor
      · intro h
        exact ⟨c :: s', rfl, Or.inr ⟨c, s', rfl, h⟩⟩
      · rintro ⟨post, rfl, (h | ⟨d, p, hdp, hb⟩)⟩
        · exact absurd h (by simp)
        · rcases List.cons.injEq .. ▸ hdp with ⟨rfl, rfl⟩
          exact hb
  | cons a w ih =>
    intro s
    cases s with
    | nil =>
      simp [startsTok]
    | cons c s' =>
      simp only [startsTok, Bool.and_eq_true, beq_iff_eq, ih s', List.cons_append]
      constructor
      · rintro ⟨rfl, post, rfl, hend⟩
        exact ⟨post, rfl, hend⟩
      · rintro ⟨post, heq, hend⟩
        rcases List.cons.injEq .. ▸ heq with ⟨rfl, rfl⟩
        exact ⟨rfl, post, rfl, hend⟩

theorem hasTokMid_iff (w : List Char) :
    ∀ s, hasTokMid w s = true ↔ midOccurs w s := by
  intro s
  induction s with
  | nil =>
    simp only [hasTokMid, midOccurs]
    constructor
    · intro h; exact absurd h (by simp)
    · rintro ⟨p, c, post, heq, -, -⟩
      exact absurd heq.symm (by simp)
  | cons c s ih =>
    simp only [hasTokMid, Bool.or_eq_true, Bool.and_eq_true, ih, midOccurs]
    constructor
    · rintro (⟨hb, hst⟩ | ⟨p, d, post, heq, hbd, hend⟩)
      · rcases (startsTok_iff w s).mp hst with ⟨post, rfl, hend⟩
        exact ⟨[], c, post, rfl, hb, hend⟩
      · exact ⟨c :: p, d, post, by rw [heq]; rfl, hbd, hend⟩
    · rintro ⟨p, d, post, heq, hbd, hend⟩
      cases p with
      | nil =>
        rcases List.cons.injEq .. ▸ heq with ⟨rfl, rfl⟩
        exact Or.inl ⟨hbd, (startsTok_iff w _).mpr ⟨post, rfl, hend⟩⟩
      | cons e p' =>
        rcases List.cons.injEq .. ▸ heq with ⟨rfl, hs⟩
        exact Or.inr ⟨p', d, post, hs, hbd, hend⟩

theorem hasTok_iff (w s : List Char) : hasTok w s = true ↔ tokenOccurs w s := by
  simp only [hasTok, Bool.or_eq_true, startsTok_iff w s, hasTokMid_iff w s,
    midOccurs, tokenOccurs]
  constructor
  · rintro (⟨post, rfl, hend⟩ | ⟨p, c, post, heq, hb, hend⟩)
    · exact ⟨[], post, rfl, Or.inl rfl, hend⟩
    · refine ⟨p ++ [c], post, ?_, Or.inr ⟨p, c, rfl, hb⟩, hend⟩
      rw [heq]; simp
  · rintro ⟨pre, post, heq, (rfl | ⟨p, c, rfl, hb⟩), hend⟩
    · exact Or.inl ⟨post, heq, hend⟩
    · refine Or.inr ⟨p, c, post, ?_, hb, hend⟩
      rw [heq]; simp

theorem startsTok_snoc (c : Char) (hc : pySpace c = true) :
    ∀ w s, (∀ b ∈ w, pySpace b = false) → startsTok w (s ++ [c]) = startsTok w s := by
  intro w
  induction w with
  | nil =>
    intro s _
    cases s with
    | nil => simp [startsTok, isBoundary, hc]
    | cons d s' => rfl
  | cons a w ih =>
    intro s hw
    have ha : pySpace a = false := hw a (by simp)
    cases s with
    | nil =>
      have hac : (a == c) = false := by
        apply beq_eq_false_iff_ne.mpr
        intro h; rw [h, hc] at ha; exact absurd ha (by simp)
      simp [startsTok, hac]
    | cons d s' =>
      have hw' : ∀ b ∈ w, pySpace b = false := fun b hb => hw b (by simp [hb])
      simp only [List.cons_append, startsTok, List.append_eq, ih s' hw']

theorem hasTokMid_snoc (c : Char) (hc : pySpace c = true) (w : List Char)
    (hwne : w ≠ []) (hw : ∀ b ∈ w, pySpace b = false) :
    ∀ s, hasTokMid w (s ++ [c]) = hasTokMid w s := by
  intro s
  induction s with
  | nil =>
    cases w with
    | nil => exact absurd rfl hwne
    | cons a w' => simp [hasTokMid, startsTok]
  | cons d s' ih =>
    simp only [List.cons_append, hasTokMid, List.append_eq, ih,
      startsTok_snoc c hc w s' hw]

theorem hasTok_cons_space (c : Char) (hc : pySpace c = true) (w : List Char)
    (hwne : w ≠ []) (hw : ∀ b ∈ w, pySpace b = false) (s : List Char) :
    hasTok w (c :: s) = hasTok w s := by
  cases w with
  | nil => exact absurd rfl hwne
  | cons a w' =>
    have ha : pySpace a = false := hw a (by simp)
    have hac : (a == c) = false := by
      apply beq_eq_false_iff_ne.mpr
      intro h; rw [h, hc] at ha; exact absurd ha (by simp)
    have hbc : isBoundary c = true := by simp [isBoundary, hc]
    simp only [hasTok, hasTokMid, startsTok, hac, hbc, Bool.false_and,
      Bool.true_and, Bool.false_or]

theorem hasTok_snoc (c : Char) (hc : pySpace c = true) (w : List Char)
    (hwne : w ≠ []) (hw : ∀ b ∈ w, pySpace b = false) (s : List Char) :
    hasTok w (s ++ [c]) = hasTok w s := by
  simp only [hasTok, startsTok_snoc c hc w s hw, hasTokMid_snoc c hc w hwne hw s]

theorem hasTok_append_spaces (w : List Char) (hwne : w ≠ [])
    (hw : ∀ b ∈ w, pySpace b = false) :
    ∀ b s, (∀ x ∈ b, pySpace x = true) → hasTok w (s ++ b) = hasTok w s := by
  intro b
  induction b with
  | nil =>
    intro s _; simp
  | cons x b ih =>
    intro s hb
    have hx : pySpace x = true := hb x (by simp)
    have hb' : ∀ y ∈ b, pySpace y = true := fun y hy => hb y (by simp [hy])
    have h1 : s ++ x :: b = (s ++ [x]) ++ b := by simp
    rw [h1, ih (s ++ [x]) hb', hasTok_snoc x hx w hwne hw s]

theorem hasTok_dropWhile (w : List Char) (hwne : w ≠ [])
    (hw : ∀ b ∈ w, pySpace b = false) :
    ∀ s, hasTok w (s.dropWhile pySpace) = hasTok w s := by
  intro s
  induction s with
  | nil => rfl
  | cons c s ih =>
    rw [List.dropWhile_cons]
    by_cases hc : pySpace c = true
    · simp only [hc, if_true, ih, hasTok_cons_space c hc w hwne hw s]
    · simp [hc]

theorem hasTok_strip (w : List Char) (hwne : w ≠ [])
    (hw : ∀ b ∈ w, pySpace b = false) (u : List Char) :
    hasTok w (pyStrip u) = hasTok w u := by
  unfold pyStrip
  have hv : hasTok w (u.dropWhile pySpace) = hasTok w u := hasTok_dropWhile w hwne hw u
  have hsplit : u.dropWhile pySpace =
      ((u.dropWhile pySpace).reverse.dropWhile pySpace).reverse ++
      ((u.dropWhile pySpace).reverse.takeWhile pySpace).reverse := by
    have h := List.takeWhile_append_dropWhile pySpace (u.dropWhile pySpace).reverse
    have h2 := congrArg List.reverse h
    rw [List.reverse_append] at h2
    symm
    simpa using h2
  have hb : ∀ x ∈ ((u.dropWhile pySpace).reverse.takeWhile pySpace).reverse,
      pySpace x = true := by
    intro x hx
    rw [List.mem_reverse] at hx
    exact List.mem_takeWhile_imp hx
  calc hasTok w (((u.dropWhile pySpace).reverse.dropWhile pySpace).reverse)
      = hasTok w (((u.dropWhile pySpace).reverse.dropWhile pySpace).reverse ++
          ((u.dropWhile pySpace).reverse.takeWhile pySpace).reverse) :=
        (hasTok_append_spaces w hwne hw _ _ hb).symm
    _ = hasTok w (u.dropWhile pySpace) := by rw [← hsplit]
    _ = hasTok w u := hv

theorem forbidden_words_ok : ∀ w ∈ forbidden, w ≠ [] ∧ ∀ b ∈ w, pySpace b = false := by
  decide

/-- C1: for every SQL statement string s, is_readonly_sql s returns false if
and only if the uppercased statement contains at least one of the forbidden
verbs as a whole token bounded on both sides by start-of-string,
end-of-string, whitespace, or a semicolon, and true otherwise; in
particular it returns false on DROP TABLE users and on
SELECT *; DROP TABLE users, and true on SELECT * FROM updates. -/
theorem is_readonly_sql_spec :
    (∀ s : List Char,
        is_readonly_sql s = false ↔ containsForbiddenToken (s.map pyToUpper)) ∧
    is_readonly_sql (("DROP TABLE users").toList) = false ∧
    is_readonly_sql (("SELECT *; DROP TABLE users").toList) = false ∧
    is_readonly_sql (("SELECT * FROM updates").toList) = true := by
  refine ⟨?_, by decide, by decide, by decide⟩
  intro s
  simp only [is_readonly_sql, Bool.not_eq_false', List.any_eq_true,
    containsForbiddenToken]
  constructor
  · rintro ⟨w, hwmem, hwtok⟩
    have hok := forbidden_words_ok w hwmem
    refine ⟨w, hwmem, ?_⟩
    rw [← hasTok_iff, ← hasTok_strip w hok.1 hok.2]
    exact hwtok
  · rintro ⟨w, hwmem, htok⟩
    have hok := forbidden_words_ok w hwmem
    refine ⟨w, hwmem, ?_⟩
    rw [hasTok_strip w hok.1 hok.2, hasTok_iff]
    exact htok

/-- C1 witness: the characterization applied at a concrete statement, with
the forbidden-token occurrence exhibited explicitly. -/
theorem is_readonly_sql_spec_witness :
    is_readonly_sql (("DELETE FROM t").toList) = false :=
  (is_readonly_sql_spec.1 (("DELETE FROM t").toList)).mpr
    ⟨("DELETE").toList, by decide,
     [], (" FROM T").toList, by decide, Or.inl rfl,
     Or.inr ⟨' ', ("FROM T").toList, by decide, by decide⟩⟩

/-- C2 counterexample: when the classification call succeeds with an
out-of-vocabulary intent and non-empty filters, the router output is not
the pair of OFFTOPIC with empty filters claimed by the spec: the filters
returned by the call are passed through. -/
theorem router_node_claim_counterexample :
    router_node (Except.ok { intent := ("WEATHER").toList
                             filters := [((("department").toList), (("sales").toList))] }) ≠
      { intent := some (("OFFTOPIC").toList), filters := some [] } := by
  decide

/-- C2 (amended): when the classification call raises, the router output is
exactly OFFTOPIC with empty filters; when the call succeeds but the
trimmed uppercased intent is out of vocabulary, the intent is replaced by
OFFTOPIC while the filters returned by the call are passed through; when
the trimmed uppercased intent is valid it is kept.  In every case the
router is a total function, so the failure never propagates to the
caller. -/
theorem router_node_fallback :
    (∀ e, router_node (Except.error e) =
        { intent := some (("OFFTOPIC").toList), filters := some [] }) ∧
    (∀ r : RouterOutput,
        valid_intents.contains ((pyStrip r.intent).map pyToUpper) = false →
        router_node (Except.ok r) =
          { intent := some (("OFFTOPIC").toList), filters := some r.filters }) ∧
    (∀ r : RouterOutput,
        valid_intents.contains ((pyStrip r.intent).map pyToUpper) = true →
        router_node (Except.ok r) =
          { intent := some ((pyStrip r.intent).map pyToUpper),
            filters := some r.filters }) := by
  refine ⟨fun e => rfl, fun r h => ?_, fun r h => ?_⟩
  · have h' : (pyStrip r.intent).map pyToUpper ∉ valid_intents := by simpa using h
    simp [router_node, h']
  · have h' : (pyStrip r.intent).map pyToUpper ∈ valid_intents := by simpa using h
    simp [router_node, h']

/-- C2 witness: the fallback theorem applied at concrete call outcomes. -/
theorem router_node_fallback_witness :
    router_node (Except.error (("boom").toList)) =
      { intent := some (("OFFTOPIC").toList), filters := some [] } ∧
    router_node (Except.ok { intent := ("WEATHER").toList
                             filters := [((("a").toList), (("b").toList))] }) =
      { intent := some (("OFFTOPIC").toList),
        filters := some [((("a").toList), (("b").toList))] } :=
  ⟨router_node_fallback.1 (("boom").toList),
   router_node_fallback.2.1
     { intent := ("WEATHER").toList, filters := [((("a").toList), (("b").toList))] }
     (by decide)⟩

/-- C3: for every query with is_readonly_sql false, sql_db_query returns the
fixed safety refusal regardless of the database driver (the driver is
never consulted); for every read-only query a driver failure is returned
as an inline textual error string and a driver success is returned as the
result text; the tool is a total function, so no exception passes its
boundary. -/
theorem sql_db_query_spec :
    (∀ (q : List Char) (dbRun : List Char → Except (List Char) (List Char)),
        is_readonly_sql q = false → sql_db_query dbRun q = forbiddenMsg) ∧
    (∀ (q : List Char) (dbRun : List Char → Except (List Char) (List Char)) (e : List Char),
        is_readonly_sql q = true → dbRun q = Except.error e →
        sql_db_query dbRun q = ("Error executing SQL: ").toList ++ e) ∧
    (∀ (q : List Char) (dbRun : List Char → Except (List Char) (List Char)) (r : List Char),
        is_readonly_sql q = true → dbRun q = Except.ok r →
        sql_db_query dbRun q = r) := by
  refine ⟨fun q f h => ?_, fun q f e h1 h2 => ?_, fun q f r h1 h2 => ?_⟩
  · simp [sql_db_query, h]
  · simp [sql_db_query, h1, h2]
  · simp [sql_db_query, h1, h2]

/-- C3 witness: the tool evaluated on a forbidden statement, a failing
driver, and a succeeding driver. -/
theorem sql_db_query_spec_witness :
    sql_db_query (fun _ => Except.ok []) (("DROP TABLE users").toList) = forbiddenMsg ∧
    sql_db_query (fun _ => Except.error (("timeout").toList)) (("SELECT 1").toList) =
      ("Error executing SQL: ").toList ++ ("timeout").toList ∧
    sql_db_query (fun _ => Except.ok (("42").toList)) (("SELECT 1").toList) =
      ("42").toList :=
  ⟨sql_db_query_spec.1 _ _ (by decide),
   sql_db_query_spec.2.1 _ _ _ (by decide) rfl,
   sql_db_query_spec.2.2 _ _ _ (by decide) rfl⟩

/-- C4: the retrieval node writes only the rag_context key and the SQL node
writes only the sql_result key, each leaving every other state field
unchanged under the LangGraph update semantics; hence when both branches
of the BOTH case complete, in either order, rag_context and sql_result
are both present with their own values and neither overwrites the
other. -/
theorem node_write_disjoint :
    (∀ (retrieve : List Char → List ((List Char) × (List Char)) → List Char)
        (s : AgentState),
        (applyUpdate s (rag_node retrieve s)).rag_context =
          some (retrieve (lastContent s.messages) (s.filters.getD [])) ∧
        (applyUpdate s (rag_node retrieve s)).messages = s.messages ∧
        (applyUpdate s (rag_node retrieve s)).clarification_needed = s.clarification_needed ∧
        (applyUpdate s (rag_node retrieve s)).sql_query = s.sql_query ∧
        (applyUpdate s (rag_node retrieve s)).sql_result = s.sql_result ∧
        (applyUpdate s (rag_node retrieve s)).intent = s.intent ∧
        (applyUpdate s (rag_node retrieve s)).filters = s.filters ∧
        (applyUpdate s (rag_node retrieve s)).final_answer = s.final_answer) ∧
    (∀ (agent : Option (List ((List Char) × (List Char))) → List Msg → List Char)
        (s : AgentState),
        (applyUpdate s (sql_gen_node agent s)).sql_result =
          some (agent s.filters s.messages) ∧
        (applyUpdate s (sql_gen_node agent s)).messages = s.messages ∧
        (applyUpdate s (sql_gen_node agent s)).clarification_needed = s.clarification_needed ∧
        (applyUpdate s (sql_gen_node agent s)).sql_query = s.sql_query ∧
        (applyUpdate s (sql_gen_node agent s)).rag_context = s.rag_context ∧
        (applyUpdate s (sql_gen_node agent s)).intent = s.intent ∧
        (applyUpdate s (sql_gen_node agent s)).filters = s.filters ∧
        (applyUpdate s (sql_gen_node agent s)).final_answer = s.final_answer) ∧
    (∀ retrieve agent (s : AgentState),
        (applyUpdate (applyUpdate s (rag_node retrieve s)) (sql_gen_node agent s)).rag_context =
          some (retrieve (lastContent s.messages) (s.filters.getD [])) ∧
        (applyUpdate (applyUpdate s (rag_node retrieve s)) (sql_gen_node agent s)).sql_result =
          some (agent s.filters s.messages)) ∧
    (∀ retrieve agent (s : AgentState),
        (applyUpdate (applyUpdate s (sql_gen_node agent s)) (rag_node retrieve s)).rag_context =
          some (retrieve (lastContent s.messages) (s.filters.getD [])) ∧
        (applyUpdate (applyUpdate s (sql_gen_node agent s)) (rag_node retrieve s)).sql_result =
          some (agent s.filters s.messages)) := by
  refine ⟨fun f s => ?_, fun g s => ?_, fun f g s => ?_, fun f g s => ?_⟩ <;>
    simp [applyUpdate, rag_node, sql_gen_node, upd]

/-- C5: the router decision dispatches RAG to the retrieval node only, SQL
to the SQL node only, BOTH to both, and OFFTOPIC or any other decision
value directly to the response node; the static edges send the retrieval
and SQL nodes to the response node, the response node only to the terminal
END state, and the response node appends the synthesized answer as one new
ai conversation turn. -/
theorem graph_dispatch_spec :
    route_decision (some (("RAG").toList)) = [GNode.rag] ∧
    route_decision (some (("SQL").toList)) = [GNode.sql_gen] ∧
    route_decision (some (("BOTH").toList)) = [GNode.rag, GNode.sql_gen] ∧
    route_decision (some (("OFFTOPIC").toList)) = [GNode.response] ∧
    (∀ i : Option (List Char),
        i ≠ some (("RAG").toList) → i ≠ some (("SQL").toList) →
        i ≠ some (("BOTH").toList) → route_decision i = [GNode.response]) ∧
    graphEdges GNode.rag = [GNode.response] ∧
    graphEdges GNode.sql_gen = [GNode.response] ∧
    graphEdges GNode.response = [GNode.END] ∧
    (∀ (llm : List Char → Except (List Char) (List Char)) (s : AgentState)
        (a : List Char),
        llm (response_input s) = Except.ok a →
        response_node llm s =
          Except.ok { final_answer := some a
                      messages := [{ role := Role.ai, content := a }] }) := by
  refine ⟨by decide, by decide, by decide, by decide, ?_, rfl, rfl, rfl, ?_⟩
  · intro i h1 h2 h3
    unfold route_decision
    rw [if_neg h1, if_neg h2, if_neg h3]
  · intro llm s a h
    simp [response_node, h]

/-- C5 witness: the dispatch theorem applied at a missing intent and the
response node run on a concrete state with a succeeding model call. -/
theorem graph_dispatch_spec_witness :
    route_decision none = [GNode.response] ∧
    response_node (fun _ => Except.ok (("fine").toList))
        { messages := [], clarification_needed := false, sql_query := none,
          rag_context := none, sql_result := none, intent := none,
          filters := none, final_answer := none } =
      Except.ok { final_answer := some (("fine").toList)
                  messages := [{ role := Role.ai, content := ("fine").toList }] } :=
  ⟨graph_dispatch_spec.2.2.2.2.1 none (by decide) (by decide) (by decide),
   graph_dispatch_spec.2.2.2.2.2.2.2.2 _ _ _ rfl⟩

/-- C6: the column value checker returns a fixed textual error for a table
missing from the live table list, independently of the database driver (no
query is executed); for a known table it hands the driver the exact
SELECT DISTINCT TOP 10 query in which the column name is interpolated
without any validation and the search term has every single quote doubled;
the quote escaping equals doubling each quote character. -/
theorem column_value_checker_spec :
    (∀ (tables : List (List Char)) (dbRun : List Char → Except (List Char) (List Char))
        (table column st : List Char),
        tables.contains table = false →
        sql_db_column_value_checker tables dbRun table column st = tableErrorMsg table) ∧
    (∀ (tables : List (List Char))
        (dbRun dbRun' : List Char → Except (List Char) (List Char))
        (table column st : List Char),
        tables.contains table = false →
        sql_db_column_value_checker tables dbRun table column st =
          sql_db_column_value_checker tables dbRun' table column st) ∧
    (∀ (tables : List (List Char)) (dbRun : List Char → Except (List Char) (List Char))
        (table column st : List Char),
        tables.contains table = true →
        sql_db_column_value_checker tables dbRun table column st =
          (match dbRun (("SELECT DISTINCT TOP 10 ").toList ++ column ++
              (" FROM ").toList ++ table ++ (" WHERE ").toList ++ column ++
              (" LIKE ").toList ++ [sqc, '%'] ++ escapeQuote st ++ ['%', sqc]) with
           | Except.ok r => r
           | Except.error e => ("Error checking values: ").toList ++ e)) ∧
    (∀ st : List Char,
        escapeQuote st =
          (st.map (fun ch => if ch = sqc then [sqc, sqc] else [ch])).flatten) := by
  refine ⟨fun tables f table column st h => ?_,
          fun tables f g table column st h => ?_,
          fun tables f table column st h => ?_, fun st => ?_⟩
  · have h' : table ∉ tables := by simpa using h
    simp [sql_db_column_value_checker, h']
  · have h' : table ∉ tables := by simpa using h
    simp [sql_db_column_value_checker, h']
  · have h' : table ∈ tables := by simpa using h
    simp [sql_db_column_value_checker, h', cvcQuery]
  · induction st with
    | nil => rfl
    | cons c rest ih =>
      by_cases hc : c = sqc
      · simp [escapeQuote, hc, ih]
      · simp [escapeQuote, hc, ih]

/-- C6 witness: the checker applied to an unknown table, and to a known
table with a quote in the search term, exhibiting the escaped query. -/
theorem column_value_checker_spec_witness :
    sql_db_column_value_checker [("users").toList] (fun _ => Except.ok [])
        (("orders").toList) (("name").toList) [] =
      tableErrorMsg (("orders").toList) ∧
    sql_db_column_value_checker [("users").toList] (fun q => Except.ok q)
        (("users").toList) (("name").toList) (('O' :: sqc :: ("Brien").toList)) =
      ("SELECT DISTINCT TOP 10 ").toList ++ ("name").toList ++
        (" FROM ").toList ++ ("users").toList ++ (" WHERE ").toList ++
        ("name").toList ++ (" LIKE ").toList ++ [sqc, '%'] ++
        escapeQuote ('O' :: sqc :: ("Brien").toList) ++ ['%', sqc] :=
  ⟨column_value_checker_spec.1 _ _ _ _ _ (by decide),
   column_value_checker_spec.2.2.1 _ _ _ _ _ (by decide)⟩

/-- C7: the synthesizer context concatenates exactly the present parts, in
the order Document Context then Database Result, skipping the absent
ones; a failing model call propagates unchanged to the caller with no
state update (so no assistant turn is appended); a succeeding call sets
final_answer and appends exactly one ai message carrying that same
answer. -/
theorem response_node_spec :
    (∀ rc sr : Option (List Char),
        rc.getD [] ≠ [] → sr.getD [] ≠ [] →
        full_context rc sr =
          ("Document Context:\n").toList ++ rc.getD [] ++ ("\n\n").toList ++
          ("Database Result:\n").toList ++ sr.getD [] ++ ("\n\n").toList) ∧
    (∀ rc sr : Option (List Char),
        rc.getD [] ≠ [] → sr.getD [] = [] →
        full_context rc sr =
          ("Document Context:\n").toList ++ rc.getD [] ++ ("\n\n").toList) ∧
    (∀ rc sr : Option (List Char),
        rc.getD [] = [] → sr.getD [] ≠ [] →
        full_context rc sr =
          ("Database Result:\n").toList ++ sr.getD [] ++ ("\n\n").toList) ∧
    (∀ rc sr : Option (List Char),
        rc.getD [] = [] → sr.getD [] = [] → full_context rc sr = []) ∧
    (∀ (llm : List Char → Except (List Char) (List Char)) (s : AgentState)
        (e : List Char),
        llm (response_input s) = Except.error e →
        response_node llm s = Except.error e) ∧
    (∀ (llm : List Char → Except (List Char) (List Char)) (s : AgentState)
        (a : List Char),
        llm (response_input s) = Except.ok a →
        response_node llm s =
          Except.ok { final_answer := some a
                      messages := [{ role := Role.ai, content := a }] }) := by
  refine ⟨fun rc sr h1 h2 => ?_, fun rc sr h1 h2 => ?_, fun rc sr h1 h2 => ?_,
          fun rc sr h1 h2 => ?_, fun llm s e h => ?_, fun llm s a h => ?_⟩
  · simp [full_context, ragSection, sqlSection, h1, h2]
  · simp [full_context, ragSection, sqlSection, h1, h2]
  · simp [full_context, ragSection, sqlSection, h1, h2]
  · simp [full_context, ragSection, sqlSection, h1, h2]
  · simp [response_node, h]
  · simp [response_node, h]

/-- C7 witness: the synthesizer context on concrete present and absent
values, and the node on a failing and a succeeding model call. -/
theorem response_node_spec_witness :
    full_context (some (("docs").toList)) none =
      ("Document Context:\n").toList ++ ("docs").toList ++ ("\n\n").toList ∧
    full_context none none = [] ∧
    response_node (fun _ => Except.error (("down").toList))
        { messages := [], clarification_needed := false, sql_query := none,
          rag_context := none, sql_result := none, intent := none,
          filters := none, final_answer := none } =
      Except.error (("down").toList) :=
  ⟨response_node_spec.2.1 (some (("docs").toList)) none (by decide) (by decide),
   response_node_spec.2.2.2.1 none none (by decide) (by decide),
   response_node_spec.2.2.2.2.1 _ _ _ rfl⟩

/-- C8 counterexample: the claim quantifies over every flat non-DSL filters
dictionary, but for the empty dictionary the conversion returns the null
sentinel, not a dictionary wrapped in a boolean filter. -/
theorem convert_filter_claim_counterexample :
    _convert_to_opensearch_filter [] = none := rfl

/-- C8 (amended): for every non-empty flat filters dictionary without a DSL
keyword, each key not already namespaced is prefixed with metadata., string
values become exact-match term clauses on the .keyword subfield, list
values become set-membership terms clauses, and the clauses are wrapped in
a boolean filter (a single clause directly, several as an array); the
empty dictionary is converted to the null sentinel; every dictionary
containing one of bool, term, match, range as a top-level key is returned
unchanged. -/
theorem convert_filter_spec :
    (∀ d : List ((List Char) × JVal), d ≠ [] → hasDslKey d = false →
        _convert_to_opensearch_filter d = some (boolFilterWrap (d.map filterClause))) ∧
    (∀ d : List ((List Char) × JVal), hasDslKey d = true →
        _convert_to_opensearch_filter d = some (JVal.obj d)) ∧
    (∀ (k : List Char) (s : List Char), metaNs.isPrefixOf k = false →
        filterClause (k, JVal.str s) =
          JVal.obj [(("term").toList,
            JVal.obj [((("metadata.").toList ++ k) ++ (".keyword").toList, JVal.str s)])]) ∧
    (∀ (k : List Char) (s : List Char), metaNs.isPrefixOf k = true →
        filterClause (k, JVal.str s) =
          JVal.obj [(("term").toList,
            JVal.obj [(k ++ (".keyword").toList, JVal.str s)])]) ∧
    (∀ (k : List Char) (xs : List JVal),
        filterClause (k, JVal.arr xs) =
          JVal.obj [(("terms").toList,
            JVal.obj [(fieldName k ++ (".keyword").toList, JVal.arr xs)])]) ∧
    (∀ f : JVal, boolFilterWrap [f] =
        JVal.obj [(("bool").toList, JVal.obj [(("filter").toList, f)])]) ∧
    (∀ (f1 f2 : JVal) (fs : List JVal),
        boolFilterWrap (f1 :: f2 :: fs) =
          JVal.obj [(("bool").toList,
            JVal.obj [(("filter").toList, JVal.arr (f1 :: f2 :: fs))])]) ∧
    _convert_to_opensearch_filter [] = none := by
  refine ⟨fun d hne hdsl => ?_, fun d hdsl => ?_, fun k s h => ?_, fun k s h => ?_,
          fun k xs => rfl, fun f => rfl, fun f1 f2 fs => rfl, rfl⟩
  · have he : d.isEmpty = false := by
      cases d with
      | nil => exact absurd rfl hne
      | cons a l => rfl
    simp [_convert_to_opensearch_filter, he, hdsl]
  · have hne : d ≠ [] := by
      intro hd
      rw [hd] at hdsl
      exact absurd hdsl (by decide)
    have he : d.isEmpty = false := by
      cases d with
      | nil => exact absurd rfl hne
      | cons a l => rfl
    simp [_convert_to_opensearch_filter, he, hdsl]
  · simp only [filterClause, fieldName, h]
    simp [metaNs]
  · simp only [filterClause, fieldName, h]
    simp

/-- C8 witness: the conversion applied to a concrete one-entry flat
dictionary with a bare string key, and to a concrete DSL dictionary. -/
theorem convert_filter_spec_witness :
    _convert_to_opensearch_filter
        [((("department").toList), JVal.str (("sales").toList))] =
      some (JVal.obj [(("bool").toList, JVal.obj [(("filter").toList,
        JVal.obj [(("term").toList, JVal.obj
          [((("metadata.department.keyword").toList), JVal.str (("sales").toList))])])])]) ∧
    _convert_to_opensearch_filter [((("term").toList), JVal.num 1)] =
      some (JVal.obj [((("term").toList), JVal.num 1)]) :=
  ⟨by
    have h := convert_filter_spec.1
      [((("department").toList), JVal.str (("sales").toList))]
      (by simp) (by rfl)
    rw [h]
    rfl,
   convert_filter_spec.2.1 [((("term").toList), JVal.num 1)] (by rfl)⟩

/-- C9: retrieve_documents issues a similarity search whose top-k bound
defaults to 4; an empty result list yields the fixed sentinel and never an
error; a non-empty result list yields each document formatted as its
content, its source (Unknown when no source metadata exists), and its
metadata, joined with the separator. -/
theorem retrieve_documents_spec :
    (∀ (search : RetrieverCfg → List Char → List Document) (q : List Char),
        retrieve_documents search q = retrieve_documents search q 4 none) ∧
    (get_retriever 4 none none).k = 4 ∧
    (get_retriever 4 none none).search_type = ("similarity").toList ∧
    (∀ (search : RetrieverCfg → List Char → List Document) (q : List Char)
        (k : Nat) (filters : Option (List ((List Char) × JVal))),
        search (get_retriever k filters none) q = [] →
        retrieve_documents search q k filters = noDocsMsg) ∧
    (∀ (search : RetrieverCfg → List Char → List Document) (q : List Char)
        (k : Nat) (filters : Option (List ((List Char) × JVal)))
        (docs : List Document),
        search (get_retriever k filters none) q = docs → docs ≠ [] →
        retrieve_documents search q k filters =
          joinSep (("\n---\n").toList) (docs.map formatDoc)) ∧
    (∀ d : Document,
        d.metadata.find? (fun kv => kv.1 == ("source").toList) = none →
        formatDoc d =
          ("Content: ").toList ++ d.page_content ++ ("\nSource: ").toList ++
          ("Unknown").toList ++ ("\nMetadata: ").toList ++ reprMeta d.metadata ++
          ("\n").toList) ∧
    (∀ (d : Document) (entry : (List Char) × (List Char)),
        d.metadata.find? (fun kv => kv.1 == ("source").toList) = some entry →
        formatDoc d =
          ("Content: ").toList ++ d.page_content ++ ("\nSource: ").toList ++
          entry.2 ++ ("\nMetadata: ").toList ++ reprMeta d.metadata ++
          ("\n").toList) := by
  refine ⟨fun search q => rfl, rfl, rfl, fun search q k filters h => ?_,
          fun search q k filters docs h hne => ?_, fun d h => ?_, fun d entry h => ?_⟩
  · simp [retrieve_documents, h]
  · have he : docs.isEmpty = false := by
      cases docs with
      | nil => exact absurd rfl hne
      | cons a l => rfl
    simp [retrieve_documents, h, he]
  · simp only [formatDoc, metaGet]
    rw [h]
  · simp only [formatDoc, metaGet]
    rw [h]

/-- C9 witness: the retrieval formatting applied at an empty search result
and at a one-document result without source metadata. -/
theorem retrieve_documents_spec_witness :
    retrieve_documents (fun _ _ => []) (("q").toList) 4 none = noDocsMsg ∧
    retrieve_documents
        (fun _ _ => [{ page_content := ("hello").toList, metadata := [] }])
        (("q").toList) 4 none =
      joinSep (("\n---\n").toList)
        ([({ page_content := ("hello").toList, metadata := [] } : Document)].map formatDoc) ∧
    formatDoc { page_content := ("hello").toList, metadata := [] } =
      ("Content: ").toList ++ ("hello").toList ++ ("\nSource: ").toList ++
      ("Unknown").toList ++ ("\nMetadata: ").toList ++ reprMeta [] ++
      ("\n").toList :=
  ⟨retrieve_documents_spec.2.2.2.1 _ _ 4 none rfl,
   retrieve_documents_spec.2.2.2.2.1 _ _ 4 none _ rfl (by simp),
   retrieve_documents_spec.2.2.2.2.2.1 _ rfl⟩

/-- C10: presence of the Document Context and Database Result sections is
decided by string truthiness: a missing key behaves exactly like the empty
string and contributes nothing, and each section appears in the combined
context exactly when the corresponding value is a non-empty string, in
which case it contributes its header followed by the value. -/
theorem full_context_truthiness :
    (∀ sr, full_context none sr = full_context (some []) sr) ∧
    (∀ rc, full_context rc none = full_context rc (some [])) ∧
    (∀ rc, (ragSection rc = [] ↔ rc.getD [] = [])) ∧
    (∀ sr, (sqlSection sr = [] ↔ sr.getD [] = [])) ∧
    (∀ rc sr, rc.getD [] = [] → full_context rc sr = sqlSection sr) ∧
    (∀ rc sr, sr.getD [] = [] → full_context rc sr = ragSection rc) ∧
    (∀ rc sr, rc.getD [] ≠ [] →
        full_context rc sr =
          ("Document Context:\n").toList ++ rc.getD [] ++ ("\n\n").toList ++
          sqlSection sr) ∧
    (∀ rc sr, sr.getD [] ≠ [] →
        full_context rc sr =
          ragSection rc ++
          (("Database Result:\n").toList ++ sr.getD [] ++ ("\n\n").toList)) := by
  refine ⟨fun sr => rfl, fun rc => rfl, fun rc => ?_, fun sr => ?_,
          fun rc sr h => ?_, fun rc sr h => ?_, fun rc sr h => ?_, fun rc sr h => ?_⟩
  · by_cases h : rc.getD [] = [] <;> simp [ragSection, h]
  · by_cases h : sr.getD [] = [] <;> simp [sqlSection, h]
  · simp [full_context, ragSection, h]
  · simp [full_context, sqlSection, h]
  · simp [full_context, ragSection, h]
  · simp [full_context, sqlSection, h]

/-- C10 witness: the truthiness characterization applied at concrete empty
and non-empty values. -/
theorem full_context_truthiness_witness :
    full_context (some []) (some (("rows").toList)) =
      sqlSection (some (("rows").toList)) ∧
    full_context (some (("docs").toList)) (some []) =
      ("Document Context:\n").toList ++ ("docs").toList ++ ("\n\n").toList ++
      sqlSection (some []) ∧
    (ragSection (some (("docs").toList)) = [] ↔ (("docs").toList : List Char) = []) :=
  ⟨full_context_truthiness.2.2.2.2.1 (some []) (some (("rows").toList)) rfl,
   full_context_truthiness.2.2.2.2.2.2.1 (some (("docs").toList)) (some []) (by decide),
   full_context_truthiness.2.2.1 (some (("docs").toList))⟩
